import Mathlib

/- Shallow embedding of the forecasting, grading, backtesting and calibration
core of the ai-sports-betting-system repository.  Scores, point spreads and
market lines are modelled as exact rationals; the Elo win-probability
transform is modelled over the reals.  Each definition is translated from the
TypeScript source file named in its doc comment.  Optional (possibly
`undefined`) fields are modelled with `Option`. -/

/-- Verdict of one graded bet: the three terminal grading states
(`'win' | 'loss' | 'push'`). -/
inductive Verdict where
  | win
  | loss
  | push
deriving Repr, DecidableEq

/-- JavaScript `Math.round`: round to the nearest integer, halves toward
positive infinity. -/
def jsRound (x : ℚ) : ℤ :=
  ⌊x + 1/2⌋

/-- Spread grading as written in `testFilter`
(src/app/api/admin/nba-conviction-optimizer/route.ts, lines 95-109):
`coverMargin = actualMargin + vegasSpread` with
`actualMargin = actualHomeScore - actualAwayScore`; the home side covers iff
`coverMargin > 0`, the away side covers iff `coverMargin < 0`, and the graded
verdict follows the picked side. -/
def coverMarginGrade (pickHome : Bool) (actualHomeScore actualAwayScore vegasSpread : ℚ) :
    Verdict :=
  let actualMargin := actualHomeScore - actualAwayScore
  let coverMargin := actualMargin + vegasSpread
  let homeCovered := coverMargin > 0
  let awayCovered := coverMargin < 0
  if pickHome then
    if homeCovered then .win else if awayCovered then .loss else .push
  else
    if awayCovered then .win else if homeCovered then .loss else .push

/-- Spread grading as written in src/app/api/admin/nba-apply-odds/route.ts
(lines 55-63) and in the NFL parameter sweep's `runSimulation`
(lines 100-115): the realized `actualSpread = actualAwayScore -
actualHomeScore` is compared directly with the Vegas spread; a home pick wins
iff `actualSpread < vegasSpread`, an away pick wins iff
`actualSpread > vegasSpread`, and exact equality is a push. -/
def actualSpreadGrade (pickHome : Bool) (actualSpread vegasSpread : ℚ) : Verdict :=
  if pickHome then
    if actualSpread < vegasSpread then .win
    else if actualSpread > vegasSpread then .loss
    else .push
  else
    if actualSpread > vegasSpread then .win
    else if actualSpread < vegasSpread then .loss
    else .push

/-- Spread grading as written in the line-movement script
(`computeAtsResult`, src/unnamed/part_000 lines 40-46):
`ats = -actualSpread + vegasSpread`, push on zero, home covers iff positive. -/
def computeAtsResult (actualSpread vegasSpread : ℚ) (pickHome : Bool) : Verdict :=
  let homeMargin := -actualSpread
  let ats := homeMargin + vegasSpread
  if ats = 0 then .push
  else
    let homeCovers := ats > 0
    if pickHome then (if homeCovers then .win else .loss)
    else (if homeCovers then .loss else .win)

/-- Spread pick direction used at every spread call site
(`pickHome = predictedSpread < vegasSpread`); an exact tie falls through to
the away side. -/
def atsPickHome (predictedSpread vegasSpread : ℚ) : Bool :=
  decide (predictedSpread < vegasSpread)

namespace NflSweep

/-- League-average points-per-game constant of the NFL parameter sweep
(src/unnamed/part_008, line 31). -/
def LEAGUE_AVG_PPG : ℚ := 22

/-- Candidate hyperparameters of the NFL parameter sweep (part_008,
`SimulationResult.params`). -/
structure SimParams where
  spreadRegression : ℚ
  eloToPoints : ℚ
  homeFieldAdv : ℚ
  eloCap : ℚ
deriving Repr, DecidableEq

/-- Score predictor `predictWithParams` (part_008 lines 33-56): regress both
teams' per-game stats 30% toward the league average, average each side's
offense with the opponent's defense, apply the (optionally capped) Elo
adjustment and the home-field advantage. -/
def predictWithParams (homeElo awayElo homePPG homePPGAllowed awayPPG awayPPGAllowed : ℚ)
    (params : SimParams) : ℚ × ℚ :=
  let regress := fun (stat : ℚ) => stat * 0.7 + LEAGUE_AVG_PPG * 0.3
  let homeScore := (regress homePPG + regress awayPPGAllowed) / 2
  let awayScore := (regress awayPPG + regress homePPGAllowed) / 2
  let eloDiff := homeElo - awayElo
  let eloAdjRaw := eloDiff * params.eloToPoints / 2
  let eloAdj :=
    if params.eloCap > 0 then max (-params.eloCap / 2) (min (params.eloCap / 2) eloAdjRaw)
    else eloAdjRaw
  (homeScore + (eloAdj + params.homeFieldAdv / 2), awayScore - (eloAdj - params.homeFieldAdv / 2))

/-- Spread derivation `calculateSpread` (part_008 lines 58-61): shrink the raw
away-minus-home spread and round to the nearest half point. -/
def calculateSpread (homeScore awayScore spreadRegression : ℚ) : ℚ :=
  let rawSpread := awayScore - homeScore
  (jsRound (rawSpread * (1 - spreadRegression) * 2) : ℚ) / 2

/-- Stored backtest row consumed by the sweep (part_008 `BacktestGame`; the
unused optional `atsResult` field is omitted). -/
structure BacktestGame where
  gameId : String
  homeTeam : String
  awayTeam : String
  homeElo : ℚ
  awayElo : ℚ
  predictedHomeScore : ℚ
  predictedAwayScore : ℚ
  actualHomeScore : ℚ
  actualAwayScore : ℚ
  vegasSpread : Option ℚ
  vegasTotal : Option ℚ
deriving Repr, DecidableEq

/-- Re-predicted spread for one game under candidate parameters
(`runSimulation` lines 75-92): team PPG is proxied by the stored predicted
scores and PPG-allowed by the league average. -/
def predSpread (params : SimParams) (g : BacktestGame) : ℚ :=
  let scores := predictWithParams g.homeElo g.awayElo g.predictedHomeScore LEAGUE_AVG_PPG
    g.predictedAwayScore LEAGUE_AVG_PPG params
  calculateSpread scores.1 scores.2 params.spreadRegression

/-- Re-predicted total for one game under candidate parameters
(`runSimulation` line 93). -/
def predTotal (params : SimParams) (g : BacktestGame) : ℚ :=
  let scores := predictWithParams g.homeElo g.awayElo g.predictedHomeScore LEAGUE_AVG_PPG
    g.predictedAwayScore LEAGUE_AVG_PPG params
  scores.1 + scores.2

/-- Mutable counters of `runSimulation` (part_008 lines 67-69). -/
structure SimTally where
  atsWins : Nat
  atsLosses : Nat
  atsPushes : Nat
  ouWins : Nat
  ouLosses : Nat
  ouPushes : Nat
  gamesWithSpread : Nat
  gamesWithTotal : Nat
deriving Repr, DecidableEq

/-- All counters start at zero. -/
def initTally : SimTally := ⟨0, 0, 0, 0, 0, 0, 0, 0⟩

/-- ATS branch of the `runSimulation` game loop (part_008 lines 103-115):
bump exactly one of the three spread counters according to the picked side. -/
def gradeAtsTally (t : SimTally) (pickHome : Bool) (actualSpread vegasSpread : ℚ) : SimTally :=
  if pickHome then
    if actualSpread < vegasSpread then { t with atsWins := t.atsWins + 1 }
    else if actualSpread > vegasSpread then { t with atsLosses := t.atsLosses + 1 }
    else { t with atsPushes := t.atsPushes + 1 }
  else
    if actualSpread > vegasSpread then { t with atsWins := t.atsWins + 1 }
    else if actualSpread < vegasSpread then { t with atsLosses := t.atsLosses + 1 }
    else { t with atsPushes := t.atsPushes + 1 }

/-- Over/under branch of the `runSimulation` game loop (part_008 lines
117-132): graded only when a positive Vegas total is present. -/
def gradeOuTally (t : SimTally) (predictedTotal : ℚ) (vegasTotal : Option ℚ)
    (actualTotal : ℚ) : SimTally :=
  match vegasTotal with
  | none => t
  | some vt =>
    if vt > 0 then
      let t := { t with gamesWithTotal := t.gamesWithTotal + 1 }
      let pickOver := decide (predictedTotal > vt)
      if pickOver then
        if actualTotal > vt then { t with ouWins := t.ouWins + 1 }
        else if actualTotal < vt then { t with ouLosses := t.ouLosses + 1 }
        else { t with ouPushes := t.ouPushes + 1 }
      else
        if actualTotal < vt then { t with ouWins := t.ouWins + 1 }
        else if actualTotal > vt then { t with ouLosses := t.ouLosses + 1 }
        else { t with ouPushes := t.ouPushes + 1 }
    else t

/-- One iteration of the `runSimulation` game loop (part_008 lines 71-133):
games without a Vegas spread are skipped outright; otherwise the spread bet is
graded against the re-predicted spread, and the total bet is graded only when
a positive Vegas total is present. -/
def simStep (params : SimParams) (t : SimTally) (g : BacktestGame) : SimTally :=
  match g.vegasSpread with
  | none => t
  | some vegasSpread =>
    let actualSpread := g.actualAwayScore - g.actualHomeScore
    let actualTotal := g.actualHomeScore + g.actualAwayScore
    let pickHome := atsPickHome (predSpread params g) vegasSpread
    let t := { t with gamesWithSpread := t.gamesWithSpread + 1 }
    let t := gradeAtsTally t pickHome actualSpread vegasSpread
    gradeOuTally t (predTotal params g) g.vegasTotal actualTotal

/-- Per-market aggregate of one simulation (part_008 `SimulationResult.ats` /
`.ou`). -/
structure MarketRecord where
  wins : Nat
  losses : Nat
  pushes : Nat
  winPct : ℚ
deriving Repr, DecidableEq

/-- Result of simulating one parameter candidate (part_008
`SimulationResult`). -/
structure SimulationResult where
  params : SimParams
  ats : MarketRecord
  ou : MarketRecord
  totalGames : Nat
deriving Repr, DecidableEq

/-- Win-percentage shape used by the sweep's summary (part_008 lines 135-153):
`total > 0 ? Math.round((wins / total) * 1000) / 10 : 0`, where
`total = wins + losses` excludes pushes. -/
def winPctOf (wins losses : Nat) : ℚ :=
  if wins + losses > 0 then
    (jsRound (((wins : ℚ) / ((wins : ℚ) + (losses : ℚ))) * 1000) : ℚ) / 10
  else 0

/-- `runSimulation` (part_008 lines 63-154): grade every game under one
parameter candidate and aggregate. -/
def runSimulation (games : List BacktestGame) (params : SimParams) : SimulationResult :=
  let t := games.foldl (simStep params) initTally
  { params := params
    ats := ⟨t.atsWins, t.atsLosses, t.atsPushes, winPctOf t.atsWins t.atsLosses⟩
    ou := ⟨t.ouWins, t.ouLosses, t.ouPushes, winPctOf t.ouWins t.ouLosses⟩
    totalGames := t.gamesWithSpread }

/-- Current production parameters (part_008 GET lines 171-176). -/
def currentParams : SimParams := ⟨0.55, 0.0593, 2.28, 4⟩

/-- Grid-search range (part_008 GET line 179). -/
def spreadRegressionRange : List ℚ := [0.3, 0.4, 0.45, 0.5, 0.55, 0.6, 0.65, 0.7, 0.75, 0.8]

/-- Grid-search range (part_008 GET line 180). -/
def eloToPointsRange : List ℚ := [0.03, 0.04, 0.05, 0.0593, 0.07, 0.08, 0.1]

/-- Grid-search range (part_008 GET line 181). -/
def homeFieldAdvRange : List ℚ := [1.5, 2.0, 2.28, 2.5, 3.0, 3.5]

/-- Grid-search range (part_008 GET line 182). -/
def eloCapRange : List ℚ := [0, 2, 3, 4, 5, 6, 8]

/-- Focused grid range (part_008 GET line 219). -/
def focusedSR : List ℚ := [0.45, 0.5, 0.55, 0.6, 0.65]

/-- Focused grid range (part_008 GET line 220). -/
def focusedETP : List ℚ := [0.07, 0.08, 0.09, 0.1, 0.11, 0.12]

/-- Focused grid range (part_008 GET line 221). -/
def focusedHFA : List ℚ := [2.5, 3.0, 3.25, 3.5, 3.75, 4.0]

/-- Focused grid range (part_008 GET line 222). -/
def focusedEC : List ℚ := [0, 2, 4, 6, 8]

/-- All candidate simulations run by the sweep, in push order (part_008 GET
lines 184-237): the current parameters first, then each single-parameter
variation, then the focused four-dimensional grid. -/
def gridResults (games : List BacktestGame) : List SimulationResult :=
  runSimulation games currentParams ::
    ((spreadRegressionRange.filter (fun sr => decide (sr ≠ currentParams.spreadRegression))).map
        (fun sr => runSimulation games { currentParams with spreadRegression := sr }) ++
      (eloToPointsRange.filter (fun etp => decide (etp ≠ currentParams.eloToPoints))).map
        (fun etp => runSimulation games { currentParams with eloToPoints := etp }) ++
      (homeFieldAdvRange.filter (fun hfa => decide (hfa ≠ currentParams.homeFieldAdv))).map
        (fun hfa => runSimulation games { currentParams with homeFieldAdv := hfa }) ++
      (eloCapRange.filter (fun ec => decide (ec ≠ currentParams.eloCap))).map
        (fun ec => runSimulation games { currentParams with eloCap := ec }) ++
      focusedSR.flatMap (fun sr =>
        focusedETP.flatMap (fun etp =>
          focusedHFA.flatMap (fun hfa =>
            focusedEC.map (fun ec => runSimulation games ⟨sr, etp, hfa, ec⟩)))))

/-- Ranked output of the NFL parameter sweep (part_008 GET lines 156-243):
filter to games carrying a Vegas spread, run the whole grid, sort by ATS win
percentage descending, keep the top 20.  No minimum-sample filter is
applied. -/
def bestATS (games : List BacktestGame) : List SimulationResult :=
  let gamesWithVegas := games.filter (fun g => g.vegasSpread.isSome)
  let results := gridResults gamesWithVegas
  (results.mergeSort (fun a b => decide (b.ats.winPct ≤ a.ats.winPct))).take 20

/-- Parameter candidate with every adjustment switched off, used to exhibit
concrete sweep behaviour on small inputs. -/
def plainParams : SimParams := ⟨0, 0, 0, 0⟩

/-- Concrete completed game whose re-predicted spread equals its Vegas spread
exactly (both are zero): elos equal, stored predictions at league average,
final score 20-24. -/
def tieGame : BacktestGame :=
  { gameId := "tie", homeTeam := "H", awayTeam := "A"
    homeElo := 1500, awayElo := 1500
    predictedHomeScore := 22, predictedAwayScore := 22
    actualHomeScore := 20, actualAwayScore := 24
    vegasSpread := some 0, vegasTotal := none }

end NflSweep

namespace FullOptimize

/-- League-average points-per-game constant
(src/app/api/admin/nba-full-optimize/route.ts, line 5). -/
def LEAGUE_AVG_PPG : ℚ := 112

/-- Per-team rolling stats (nba-full-optimize `TeamStats`). -/
structure TeamStats where
  ppg : ℚ
  ppgAllowed : ℚ
deriving Repr, DecidableEq

/-- Hyperparameters of the full optimizer (nba-full-optimize `SimParams`). -/
structure SimParams where
  statsRegression : ℚ
  eloToPoints : ℚ
  homeCourt : ℚ
  spreadRegression : ℚ
  eloCap : ℚ
deriving Repr, DecidableEq

/-- Score-prediction portion of `simulate` (nba-full-optimize route.ts lines
57-77): regress each stat toward the league average by `statsRegression`,
average each side's offense with the opponent's defense, add the (optionally
capped) Elo adjustment to the home side and subtract it from the away side,
and add half the home-court constant to both sides. -/
def predictScores (params : SimParams) (homeElo awayElo : ℚ)
    (homeStats awayStats : TeamStats) : ℚ × ℚ :=
  let regress := fun (stat : ℚ) =>
    stat * (1 - params.statsRegression) + LEAGUE_AVG_PPG * params.statsRegression
  let baseHomeScore := (regress homeStats.ppg + regress awayStats.ppgAllowed) / 2
  let baseAwayScore := (regress awayStats.ppg + regress homeStats.ppgAllowed) / 2
  let eloDiff := homeElo - awayElo
  let eloAdjRaw := eloDiff * params.eloToPoints / 2
  let eloAdj :=
    if params.eloCap > 0 then max (-params.eloCap / 2) (min (params.eloCap / 2) eloAdjRaw)
    else eloAdjRaw
  (baseHomeScore + eloAdj + params.homeCourt / 2, baseAwayScore - eloAdj + params.homeCourt / 2)

end FullOptimize

/-- Clamp `x` into the interval `[lo, hi]`. -/
def clamp (lo hi x : ℚ) : ℚ := max lo (min hi x)

/-- Score predictor exactly as claim C4 words it: regress each per-game stat
as `raw*(1-r) + leagueAvg*r`; each side's base score is the average of its
own regressed offense and the opponent's regressed defense; a rating-gap
adjustment `clamp(ratingDiff*ratingToPoints/2, -cap/2, +cap/2)` (applied
unclamped when `cap = 0`) is added to the home score and subtracted from the
away score; and `+HFA/2` is added to both projected scores. -/
def predictScoresSpec (leagueAvg r ratingToPoints hfa cap : ℚ)
    (homeRating awayRating homeOff homeDef awayOff awayDef : ℚ) : ℚ × ℚ :=
  let reg := fun (stat : ℚ) => stat * (1 - r) + leagueAvg * r
  let homeBase := (reg homeOff + reg awayDef) / 2
  let awayBase := (reg awayOff + reg homeDef) / 2
  let rawAdj := (homeRating - awayRating) * ratingToPoints / 2
  let adj := if cap = 0 then rawAdj else clamp (-(cap / 2)) (cap / 2) rawAdj
  (homeBase + adj + hfa / 2, awayBase - adj + hfa / 2)

namespace Conviction

/-- Stored NBA backtest row (nba-conviction-optimizer route.ts
`BacktestResult`). -/
structure BacktestResult where
  gameId : String
  homeTeam : String
  awayTeam : String
  predictedSpread : ℚ
  predictedTotal : ℚ
  homeWinProb : ℚ
  homeElo : ℚ
  awayElo : ℚ
  vegasSpread : Option ℚ
  vegasTotal : Option ℚ
  actualHomeScore : ℚ
  actualAwayScore : ℚ
  actualSpread : ℚ
  actualTotal : ℚ
deriving Repr, DecidableEq

/-- Conviction filter configuration (nba-conviction-optimizer
`FilterConfig`).  Optional numeric fields are `Option` (the source tests them
with `!== undefined`); the optional boolean flags collapse `undefined` and
`false`, and the optional team lists collapse `undefined` and the empty list
(identical truthiness in the source). -/
structure FilterConfig where
  name : String
  onlyPickFavorite : Bool
  onlyPickUnderdog : Bool
  maxVegasSpread : Option ℚ
  minVegasSpread : Option ℚ
  maxEdge : Option ℚ
  minEdge : Option ℚ
  requireEloAlignment : Bool
  avoidHomeTeams : List String
  avoidAwayTeams : List String
  minEloGap : Option ℚ
  maxEloGap : Option ℚ
deriving Repr, DecidableEq

/-- Aggregate result of one filter (nba-conviction-optimizer
`FilterResult`). -/
structure FilterResult where
  config : FilterConfig
  wins : Nat
  losses : Nat
  pushes : Nat
  winPct : ℚ
  games : Nat
  roi : ℚ
deriving Repr, DecidableEq

/-- The chain of `continue` cuts of the `testFilter` loop (lines 72-93),
expressed as one conjunction: a game is graded iff it survives every
configured cut. -/
def passesFilter (config : FilterConfig) (game : BacktestResult) (vegasSpread : ℚ) : Bool :=
  let eloDiff := game.homeElo - game.awayElo
  let spreadDiff := game.predictedSpread - vegasSpread
  let absEdge := |spreadDiff|
  let absVegasSpread := |vegasSpread|
  let pickHome := decide (game.predictedSpread < vegasSpread)
  let vegasFavoriteHome := decide (vegasSpread < 0)
  let pickingFavorite := pickHome == vegasFavoriteHome
  let absEloGap := |eloDiff|
  (!(config.onlyPickFavorite && !pickingFavorite)) &&
  (!(config.onlyPickUnderdog && pickingFavorite)) &&
  (match config.maxVegasSpread with | some m => !decide (absVegasSpread > m) | none => true) &&
  (match config.minVegasSpread with | some m => !decide (absVegasSpread < m) | none => true) &&
  (match config.maxEdge with | some m => !decide (absEdge > m) | none => true) &&
  (match config.minEdge with | some m => !decide (absEdge < m) | none => true) &&
  (!config.requireEloAlignment || (pickHome == decide (eloDiff > 0))) &&
  (!(config.avoidHomeTeams.contains game.homeTeam)) &&
  (!(config.avoidAwayTeams.contains game.awayTeam)) &&
  (match config.minEloGap with | some m => !decide (absEloGap < m) | none => true) &&
  (match config.maxEloGap with | some m => !decide (absEloGap > m) | none => true)

/-- Body of the `testFilter` game loop (lines 58-110) acting on the
`(wins, losses, pushes)` counters: skip games without a Vegas spread or
failing a cut; otherwise grade via the cover-margin formula. -/
def testFilterStep (config : FilterConfig) (acc : Nat × Nat × Nat) (game : BacktestResult) :
    Nat × Nat × Nat :=
  match game.vegasSpread with
  | none => acc
  | some vegasSpread =>
    if passesFilter config game vegasSpread then
      let actualMargin := game.actualHomeScore - game.actualAwayScore
      let coverMargin := actualMargin + vegasSpread
      let homeCovered := coverMargin > 0
      let awayCovered := coverMargin < 0
      let pickHome := decide (game.predictedSpread < vegasSpread)
      if pickHome then
        if homeCovered then (acc.1 + 1, acc.2.1, acc.2.2)
        else if awayCovered then (acc.1, acc.2.1 + 1, acc.2.2)
        else (acc.1, acc.2.1, acc.2.2 + 1)
      else
        if awayCovered then (acc.1 + 1, acc.2.1, acc.2.2)
        else if homeCovered then (acc.1, acc.2.1 + 1, acc.2.2)
        else (acc.1, acc.2.1, acc.2.2 + 1)
    else acc

/-- `testFilter` (nba-conviction-optimizer lines 55-126): grade every game
that survives the cuts and aggregate; `games` counts graded (non-push)
bets. -/
def testFilter (games : List BacktestResult) (config : FilterConfig) : FilterResult :=
  let c := games.foldl (testFilterStep config) (0, 0, 0)
  let wins := c.1
  let losses := c.2.1
  let pushes := c.2.2
  let totalGames := wins + losses
  let winPct : ℚ := if totalGames > 0 then ((wins : ℚ) / (totalGames : ℚ)) * 100 else 0
  let roi : ℚ :=
    if totalGames > 0 then (((wins : ℚ) * 100 - (losses : ℚ) * 110) / ((totalGames : ℚ) * 110)) * 100
    else 0
  { config := config, wins := wins, losses := losses, pushes := pushes
    winPct := (jsRound (winPct * 10) : ℚ) / 10
    games := totalGames
    roi := (jsRound (roi * 10) : ℚ) / 10 }

/-- Ranked conviction output (GET lines 194-203): only filters with at least
10 graded games are kept (`result.games >= 10`), sorted by win percentage
descending. -/
def rankedFilters (games : List BacktestResult) (filters : List FilterConfig) :
    List FilterResult :=
  ((filters.map (testFilter games)).filter (fun r => decide (r.games ≥ 10))).mergeSort
    (fun a b => decide (b.winPct ≤ a.winPct))

/-- Filter configuration with no cuts (the GET's `'No filters (baseline)'`
entry). -/
def baselineConfig : FilterConfig :=
  ⟨"No filters (baseline)", false, false, none, none, none, none, false, [], [], none, none⟩

/-- Concrete graded game used to exercise the conviction pipeline: home
favourite covering a -3 line. -/
def convictionGame : BacktestResult :=
  { gameId := "g", homeTeam := "H", awayTeam := "A"
    predictedSpread := -5, predictedTotal := 220, homeWinProb := 0.6
    homeElo := 1550, awayElo := 1450
    vegasSpread := some (-3), vegasTotal := none
    actualHomeScore := 110, actualAwayScore := 100
    actualSpread := -10, actualTotal := 210 }

end Conviction

namespace Strategy

/-- Strategy-simulation parameters (src/unnamed/part_001
`SimulationParams`). -/
structure SimulationParams where
  spreadRegression : ℚ
  spreadOffset : ℚ
  minEdge : ℚ
  maxSpread : ℚ
  minSpread : ℚ
  totalRegression : ℚ
  minTotalEdge : ℚ
deriving Repr, DecidableEq

/-- Per-market aggregate of one strategy simulation (part_001
`SimulationResult.ats` / `.ou`; `bets` is the graded win+loss count). -/
structure MarketStats where
  wins : Nat
  losses : Nat
  pushes : Nat
  winPct : ℚ
  bets : Nat
  roi : ℚ
deriving Repr, DecidableEq

/-- Result of one strategy candidate (part_001 `SimulationResult`). -/
structure SimulationResult where
  params : SimulationParams
  ats : MarketStats
  ou : MarketStats
  combinedRoi : ℚ
deriving Repr, DecidableEq

/-- ATS ranking of the strategy sweep (part_001 GET lines 260-282): sort all
candidates by ATS ROI descending, keep only those with at least 30 graded
bets (`r.ats.bets >= 30`), return the top 10. -/
def bestAtsStrategies (results : List SimulationResult) : List SimulationResult :=
  ((results.mergeSort (fun a b => decide (b.ats.roi ≤ a.ats.roi))).filter
      (fun r => decide (r.ats.bets ≥ 30))).take 10

/-- O/U ranking of the strategy sweep (part_001 GET lines 262-290), built the
same way with the same 30-bet floor. -/
def bestOuStrategies (results : List SimulationResult) : List SimulationResult :=
  ((results.mergeSort (fun a b => decide (b.ou.roi ≤ a.ou.roi))).filter
      (fun r => decide (r.ou.bets ≥ 30))).take 10

/-- Concrete strategy candidate sitting exactly at the 30-bet floor. -/
def flooredResult : SimulationResult :=
  { params := ⟨0, 0, 0, 20, 0, 0, 0⟩
    ats := ⟨18, 12, 3, 60, 30, 9.1⟩
    ou := ⟨0, 0, 0, 0, 0, 0⟩
    combinedRoi := 0 }

end Strategy

namespace NflBacktest

/-- Prediction constants of the NFL blob-sync route (nhl/layout.tsx blob-sync
section, lines 43-48). -/
def LEAGUE_AVG_PPG : ℚ := 22

/-- Elo-to-points conversion constant (line 44). -/
def ELO_TO_POINTS : ℚ := 0.0593

/-- Home-field advantage constant (line 45). -/
def HOME_FIELD_ADVANTAGE : ℚ := 2.28

/-- Fixed Elo home bonus folded into the win probability (line 46). -/
def ELO_HOME_ADVANTAGE : ℚ := 48

/-- Spread shrinkage constant (line 47). -/
def SPREAD_REGRESSION : ℚ := 0.55

/-- Elo adjustment cap (line 48). -/
def ELO_CAP : ℚ := 4

/-- Round to one decimal place, `Math.round(x * 10) / 10`. -/
def roundTenth (x : ℚ) : ℚ := (jsRound (x * 10) : ℚ) / 10

/-- `predictScore` (blob-sync lines 76-101): the sweep's predictor with the
fixed production constants, outputs rounded to a tenth of a point. -/
def predictScore (homeElo awayElo homePPG homePPGAllowed awayPPG awayPPGAllowed : ℚ) :
    ℚ × ℚ :=
  let regress := fun (stat : ℚ) => stat * 0.7 + LEAGUE_AVG_PPG * 0.3
  let homeScore := (regress homePPG + regress awayPPGAllowed) / 2
  let awayScore := (regress awayPPG + regress homePPGAllowed) / 2
  let eloDiff := homeElo - awayElo
  let eloAdjRaw := eloDiff * ELO_TO_POINTS / 2
  let eloAdj :=
    if ELO_CAP > 0 then max (-ELO_CAP / 2) (min (ELO_CAP / 2) eloAdjRaw) else eloAdjRaw
  (roundTenth (homeScore + (eloAdj + HOME_FIELD_ADVANTAGE / 2)),
    roundTenth (awayScore - (eloAdj - HOME_FIELD_ADVANTAGE / 2)))

/-- `calculateSpread` (blob-sync lines 103-106). -/
def calculateSpread (homeScore awayScore : ℚ) : ℚ :=
  let rawSpread := awayScore - homeScore
  (jsRound (rawSpread * (1 - SPREAD_REGRESSION) * 2) : ℚ) / 2

/-- Elo-based home win probability (blob-sync lines 224-225):
`1 / (1 + 10^((awayElo - (homeElo + ELO_HOME_ADVANTAGE)) / 400))` with the
fixed home bonus of 48 Elo; the same formula appears in part_003 lines
266-267. -/
noncomputable def homeWinProb (homeElo awayElo : ℝ) : ℝ :=
  1 / (1 + (10 : ℝ) ^ ((awayElo - (homeElo + 48)) / 400))

/-- Team record held in the blob (blob-sync `TeamData`). -/
structure TeamData where
  id : String
  name : String
  abbreviation : String
  eloRating : ℚ
  ppg : Option ℚ
  ppgAllowed : Option ℚ
deriving Repr, DecidableEq

/-- Completed-game record from the schedule feed; `Option` models absent
(`undefined`) fields and `gameTime` is the numeric timestamp used by the
chronological sort (`new Date(x).getTime()`). -/
structure NFLGame where
  id : Option String
  gameTime : ℤ
  homeTeamId : Option String
  awayTeamId : Option String
  homeScore : Option ℚ
  awayScore : Option ℚ
deriving Repr, DecidableEq

/-- JavaScript `stat || LEAGUE_AVG_PPG` on an optional stat: `undefined` and
`0` are both falsy. -/
def orLeagueAvg (stat : Option ℚ) : ℚ :=
  match stat with
  | none => LEAGUE_AVG_PPG
  | some x => if x = 0 then LEAGUE_AVG_PPG else x

/-- Backtest state carried between runs: the team map, the processed-game-id
set and the summary counters (the persisted `BlobState` without the
presentation-only fields). -/
structure BacktestState where
  teams : List TeamData
  processed : List String
  spreadWins : Nat
  spreadLosses : Nat
  spreadPushes : Nat
  mlWins : Nat
  mlLosses : Nat
  ouWins : Nat
  ouLosses : Nat
  ouPushes : Nat
deriving Repr, DecidableEq

/-- `teamsMap.get(id)` on the association list keyed by `TeamData.id`. -/
def lookupTeam (teams : List TeamData) (tid : String) : Option TeamData :=
  teams.find? (fun t => t.id == tid)

/-- `team.eloRating = newElo`: update one team's rating in place, preserving
every other field. -/
def setElo (teams : List TeamData) (tid : String) (elo : ℚ) : List TeamData :=
  teams.map (fun t => if t.id == tid then { t with eloRating := elo } else t)

/-- `processedGameIds.add(gameId)` on the set modelled as a duplicate-free
insertion-ordered list. -/
def addProcessed (processed : List String) (gid : String) : List String :=
  if processed.contains gid then processed else processed ++ [gid]

/-- Data needed to replay one game, or `none` when any guard of the loop head
fails. -/
structure GameCtx where
  hs : ℚ
  aws : ℚ
  gid : String
  hid : String
  aid : String
  homeTeam : TeamData
  awayTeam : TeamData
deriving Repr, DecidableEq

/-- The `continue` guard chain of the replay loop (blob-sync lines 204-210):
a game is replayed only when both scores, all three identifiers and both
teams are available; otherwise the iteration skips without touching state. -/
def gameData (teams : List TeamData) (g : NFLGame) : Option GameCtx :=
  match g.homeScore, g.awayScore, g.id, g.homeTeamId, g.awayTeamId with
  | some hs, some aws, some gid, some hid, some aid =>
    match lookupTeam teams hid, lookupTeam teams aid with
    | some homeTeam, some awayTeam => some ⟨hs, aws, gid, hid, aid, homeTeam, awayTeam⟩
    | _, _ => none
  | _, _, _, _, _ => none

section

open scoped Classical

/-- One iteration of the replay loop (blob-sync lines 204-292): predict with
current Elos, grade spread (against the model's own predicted spread),
moneyline and over/under (against the constant line 44), update both Elo
ratings and mark the game processed.  No market line exists anywhere in this
pipeline.  The body of `updateEloAfterGame` lives in `src/services/elo`,
which is not among the provided sources, so the runner is parametric in it
(`updateElo homeElo awayElo actualHomeScore actualAwayScore` returns the new
home and away ratings). -/
noncomputable def step (updateElo : ℚ → ℚ → ℚ → ℚ → ℚ × ℚ) (st : BacktestState)
    (g : NFLGame) : BacktestState :=
  match gameData st.teams g with
  | none => st
  | some ctx =>
    let homeElo := ctx.homeTeam.eloRating
    let awayElo := ctx.awayTeam.eloRating
    let scores := predictScore homeElo awayElo (orLeagueAvg ctx.homeTeam.ppg)
      (orLeagueAvg ctx.homeTeam.ppgAllowed) (orLeagueAvg ctx.awayTeam.ppg)
      (orLeagueAvg ctx.awayTeam.ppgAllowed)
    let predictedSpread := calculateSpread scores.1 scores.2
    let predictedTotal := scores.1 + scores.2
    let actualSpread := ctx.aws - ctx.hs
    let actualTotal := ctx.hs + ctx.aws
    let homeWon := decide (ctx.hs > ctx.aws)
    let spreadPickHome := decide (predictedSpread < 0)
    let spreadResult : Verdict :=
      if spreadPickHome then
        if actualSpread < predictedSpread then .win
        else if actualSpread > predictedSpread then .loss
        else .push
      else
        if actualSpread > predictedSpread then .win
        else if actualSpread < predictedSpread then .loss
        else .push
    let mlWin : Prop :=
      (homeWinProb (homeElo : ℝ) (awayElo : ℝ) > 0.5 ∧ homeWon = true) ∨
        (¬homeWinProb (homeElo : ℝ) (awayElo : ℝ) > 0.5 ∧ homeWon = false)
    let ouPickOver := decide (predictedTotal > 44)
    let ouResult : Verdict :=
      if ouPickOver then
        if actualTotal > 44 then .win
        else if actualTotal < 44 then .loss
        else .push
      else
        if actualTotal < 44 then .win
        else if actualTotal > 44 then .loss
        else .push
    let newElos := updateElo homeElo awayElo ctx.hs ctx.aws
    { teams := setElo (setElo st.teams ctx.hid newElos.1) ctx.aid newElos.2
      processed := addProcessed st.processed ctx.gid
      spreadWins := st.spreadWins + (if spreadResult = .win then 1 else 0)
      spreadLosses := st.spreadLosses + (if spreadResult = .loss then 1 else 0)
      spreadPushes := st.spreadPushes + (if spreadResult = .push then 1 else 0)
      mlWins := st.mlWins + (if mlWin then 1 else 0)
      mlLosses := st.mlLosses + (if mlWin then 0 else 1)
      ouWins := st.ouWins + (if ouResult = .win then 1 else 0)
      ouLosses := st.ouLosses + (if ouResult = .loss then 1 else 0)
      ouPushes := st.ouPushes + (if ouResult = .push then 1 else 0) }

end

/-- One full backtest invocation over the already-fetched completed games
(blob-sync GET lines 172-292): keep only games that carry an id and are not
in the processed set, sort the remainder chronologically, then replay in
order. -/
noncomputable def run (updateElo : ℚ → ℚ → ℚ → ℚ → ℚ × ℚ) (st : BacktestState)
    (games : List NFLGame) : BacktestState :=
  let newGames := games.filter (fun g =>
    match g.id with
    | some gid => !st.processed.contains gid
    | none => false)
  let sorted := newGames.mergeSort (fun a b => decide (a.gameTime ≤ b.gameTime))
  sorted.foldl (step updateElo) st

/-- Win-percentage shape of the blob summary (blob-sync lines 367-369):
`total > 0 ? Math.round((wins / total) * 1000) / 10 : 0` with
`total = wins + losses`, pushes excluded. -/
def summaryPct (wins losses : Nat) : ℚ :=
  if wins + losses > 0 then
    (jsRound (((wins : ℚ) / ((wins : ℚ) + (losses : ℚ))) * 1000) : ℚ) / 10
  else 0

/-- Two team lists with the same key set (lookup succeeds for exactly the
same ids). -/
def sameKeys (ts ts' : List TeamData) : Prop :=
  ∀ tid, (lookupTeam ts tid).isSome = (lookupTeam ts' tid).isSome

/-- Concrete two-team state with fresh counters, used to exhibit concrete
backtest behaviour. -/
def twoTeamState : BacktestState :=
  { teams := [⟨"h1", "Home", "H", 1500, some 30, some 20⟩,
      ⟨"a1", "Away", "A", 1500, some 20, some 30⟩]
    processed := []
    spreadWins := 0, spreadLosses := 0, spreadPushes := 0
    mlWins := 0, mlLosses := 0
    ouWins := 0, ouLosses := 0, ouPushes := 0 }

/-- Concrete completed game between the two teams of `twoTeamState`, final
score 24-20; like every game of this pipeline it carries no market line. -/
def finalGame : NFLGame :=
  { id := some "g1", gameTime := 0
    homeTeamId := some "h1", awayTeamId := some "a1"
    homeScore := some 24, awayScore := some 20 }

end NflBacktest

namespace OptimizeRoute

/-- Stored backtest row of the optimize route
(src/app/api/admin/optimize/route.ts `BacktestResult`); only the fields read
by `calculateMetrics` and the identifying/odds fields are modelled. -/
structure BacktestResult where
  gameId : String
  predictedSpread : ℚ
  predictedTotal : ℚ
  actualSpread : ℚ
  actualTotal : ℚ
  vegasSpread : Option ℚ
  vegasTotal : Option ℚ
  atsResult : Option Verdict
  ouResult : Option Verdict
deriving Repr, DecidableEq

/-- Aggregate metrics (optimize route `PerformanceMetrics`). -/
structure PerformanceMetrics where
  wins : Nat
  losses : Nat
  pushes : Nat
  total : Nat
  winPct : ℚ
  roi : ℚ
deriving Repr, DecidableEq

/-- `calculateMetrics` (optimize route lines 34-43): count win/loss/push over
the chosen result field (`'atsResult' | 'ouResult'`, passed as a selector);
`total = wins + losses` excludes pushes, and winPct/ROI are zero-guarded. -/
def calculateMetrics (results : List BacktestResult)
    (field : BacktestResult → Option Verdict) : PerformanceMetrics :=
  let wins := (results.filter (fun r => field r == some .win)).length
  let losses := (results.filter (fun r => field r == some .loss)).length
  let pushes := (results.filter (fun r => field r == some .push)).length
  let total := wins + losses
  let winPct : ℚ :=
    if total > 0 then (jsRound (((wins : ℚ) / (total : ℚ)) * 1000) : ℚ) / 10 else 0
  let roi : ℚ :=
    if total > 0 then (jsRound ((((wins : ℚ) * 0.909 - (losses : ℚ)) / (total : ℚ)) * 1000) : ℚ) / 10
    else 0
  ⟨wins, losses, pushes, total, winPct, roi⟩

/-- Concrete row graded as a push on the ATS market. -/
def pushRow : BacktestResult :=
  ⟨"p", 0, 0, 0, 0, none, none, some .push, none⟩

end OptimizeRoute

/-- Helper: the ATS grading branch always records exactly one spread verdict. -/
theorem gradeAtsTally_count (t : NflSweep.SimTally) (pickHome : Bool) (s v : ℚ) :
    (NflSweep.gradeAtsTally t pickHome s v).atsWins +
        (NflSweep.gradeAtsTally t pickHome s v).atsLosses +
        (NflSweep.gradeAtsTally t pickHome s v).atsPushes =
      t.atsWins + t.atsLosses + t.atsPushes + 1 := by
  cases pickHome <;>
    simp only [NflSweep.gradeAtsTally] <;>
    split_ifs <;>
    simp <;>
    omega

/-- Helper: the O/U grading branch never touches the spread counters. -/
theorem gradeOuTally_ats (t : NflSweep.SimTally) (pt : ℚ) (vt : Option ℚ) (actualTotal : ℚ) :
    (NflSweep.gradeOuTally t pt vt actualTotal).atsWins = t.atsWins ∧
    (NflSweep.gradeOuTally t pt vt actualTotal).atsLosses = t.atsLosses ∧
    (NflSweep.gradeOuTally t pt vt actualTotal).atsPushes = t.atsPushes := by
  rcases vt with _ | v
  · simp [NflSweep.gradeOuTally]
  · simp only [NflSweep.gradeOuTally]
    split_ifs <;> simp

/-- C1: the spread-cover formulas used across the call sites agree: grading
via `coverMargin = (actualHomeScore - actualAwayScore) + vegasSpread`
(conviction optimizer), grading via `actualSpread = actualAwayScore -
actualHomeScore` compared with the Vegas spread (apply-odds route, parameter
sweep), and the line-movement script's `computeAtsResult` all produce the
same win/loss/push verdict for every score pair, market spread and pick
direction. -/
theorem spread_cover_formulas_consistent (pickHome : Bool)
    (actualHomeScore actualAwayScore vegasSpread : ℚ) :
    coverMarginGrade pickHome actualHomeScore actualAwayScore vegasSpread =
      actualSpreadGrade pickHome (actualAwayScore - actualHomeScore) vegasSpread ∧
    computeAtsResult (actualAwayScore - actualHomeScore) vegasSpread pickHome =
      actualSpreadGrade pickHome (actualAwayScore - actualHomeScore) vegasSpread := by
  cases pickHome <;>
    refine ⟨?_, ?_⟩ <;>
    simp only [coverMarginGrade, actualSpreadGrade, computeAtsResult] <;>
    split_ifs <;>
    first
      | rfl
      | (exfalso; linarith)
      | (exfalso;
         exact absurd
           (show -(actualAwayScore - actualHomeScore) + vegasSpread = 0 by linarith)
           (by assumption))

/-- C2: spread grading returns a push exactly on equality: whenever the
realized spread equals the Vegas spread, the graded verdict is `push` for
both pick directions. -/
theorem spread_push_on_equality (pickHome : Bool) (actualSpread vegasSpread : ℚ)
    (h : actualSpread = vegasSpread) :
    actualSpreadGrade pickHome actualSpread vegasSpread = .push := by
  subst h
  cases pickHome <;> simp [actualSpreadGrade]

/-- Concrete instance of `spread_push_on_equality` at spread −3 for both pick
directions. -/
theorem spread_push_on_equality_witness :
    actualSpreadGrade true (-3) (-3) = .push ∧ actualSpreadGrade false (-3) (-3) = .push :=
  ⟨spread_push_on_equality true (-3) (-3) rfl,
   spread_push_on_equality false (-3) (-3) rfl⟩

/-- C3 counterexample: the sweep does not treat an exact model/market spread
tie as a no-bet.  For `tieGame` the re-predicted spread equals the Vegas
spread (both 0), yet the simulation records an ATS verdict for the game: the
pick defaults to the away side and is graded a win. -/
theorem spread_tie_records_bet :
    NflSweep.predSpread NflSweep.plainParams NflSweep.tieGame = 0 ∧
    NflSweep.tieGame.vegasSpread = some 0 ∧
    (NflSweep.runSimulation [NflSweep.tieGame] NflSweep.plainParams).ats.wins = 1 := by
  have hspread : NflSweep.predSpread NflSweep.plainParams NflSweep.tieGame = 0 := by
    norm_num [NflSweep.predSpread, NflSweep.predictWithParams, NflSweep.calculateSpread,
      NflSweep.plainParams, NflSweep.tieGame, NflSweep.LEAGUE_AVG_PPG, jsRound]
  have hpick : atsPickHome (NflSweep.predSpread NflSweep.plainParams NflSweep.tieGame) 0 =
      false := by
    rw [hspread, atsPickHome]
    exact decide_eq_false (lt_irrefl 0)
  have hv : NflSweep.tieGame.vegasSpread = some 0 := rfl
  have hvt : NflSweep.tieGame.vegasTotal = none := rfl
  have hah : NflSweep.tieGame.actualHomeScore = 20 := rfl
  have haa : NflSweep.tieGame.actualAwayScore = 24 := rfl
  have hstep : NflSweep.simStep NflSweep.plainParams NflSweep.initTally NflSweep.tieGame =
      ⟨1, 0, 0, 0, 0, 0, 1, 0⟩ := by
    simp only [NflSweep.simStep, hv, hvt, hah, haa, hpick, NflSweep.gradeOuTally,
      NflSweep.gradeAtsTally, NflSweep.initTally]
    norm_num
  refine ⟨hspread, rfl, ?_⟩
  simp only [NflSweep.runSimulation, List.foldl_cons, List.foldl_nil, hstep]

/-- C3 amended: when the re-predicted spread exactly equals the market
spread, the sweep does not skip the game: the pick silently defaults to the
away side (`atsPickHome` is `false` on a tie) and exactly one spread verdict
(win, loss or push) is recorded for the game. -/
theorem spread_tie_defaults_to_away (params : NflSweep.SimParams) (t : NflSweep.SimTally)
    (g : NflSweep.BacktestGame) (v : ℚ) (hv : g.vegasSpread = some v)
    (hp : NflSweep.predSpread params g = v) :
    atsPickHome (NflSweep.predSpread params g) v = false ∧
    (NflSweep.simStep params t g).atsWins + (NflSweep.simStep params t g).atsLosses +
        (NflSweep.simStep params t g).atsPushes =
      t.atsWins + t.atsLosses + t.atsPushes + 1 := by
  have hpick : atsPickHome (NflSweep.predSpread params g) v = false := by
    rw [hp, atsPickHome]
    exact decide_eq_false (lt_irrefl v)
  refine ⟨hpick, ?_⟩
  simp only [NflSweep.simStep, hv]
  obtain ⟨e1, e2, e3⟩ := gradeOuTally_ats
    (NflSweep.gradeAtsTally { t with gamesWithSpread := t.gamesWithSpread + 1 }
      (atsPickHome (NflSweep.predSpread params g) v)
      (g.actualAwayScore - g.actualHomeScore) v)
    (NflSweep.predTotal params g) g.vegasTotal (g.actualHomeScore + g.actualAwayScore)
  rw [e1, e2, e3, gradeAtsTally_count]

/-- Concrete instance of `spread_tie_defaults_to_away` at `tieGame`. -/
theorem spread_tie_defaults_to_away_witness :
    atsPickHome (NflSweep.predSpread NflSweep.plainParams NflSweep.tieGame) 0 = false ∧
    (NflSweep.simStep NflSweep.plainParams NflSweep.initTally NflSweep.tieGame).atsWins +
        (NflSweep.simStep NflSweep.plainParams NflSweep.initTally NflSweep.tieGame).atsLosses +
        (NflSweep.simStep NflSweep.plainParams NflSweep.initTally NflSweep.tieGame).atsPushes =
      NflSweep.initTally.atsWins + NflSweep.initTally.atsLosses +
        NflSweep.initTally.atsPushes + 1 :=
  spread_tie_defaults_to_away NflSweep.plainParams NflSweep.initTally NflSweep.tieGame 0 rfl
    (by norm_num [NflSweep.predSpread, NflSweep.predictWithParams, NflSweep.calculateSpread,
      NflSweep.plainParams, NflSweep.tieGame, NflSweep.LEAGUE_AVG_PPG, jsRound])

/-- C4: the score predictor computes exactly the formula the claim states:
regression `raw*(1-r) + leagueAvg*r`, base score as the average of own
regressed offense and opponent's regressed defense, a rating-gap adjustment
`clamp(ratingDiff*ratingToPoints/2, -cap/2, +cap/2)` (unclamped when
`cap = 0`) added to home and subtracted from away, and `+HFA/2` added to BOTH
projected scores--so the home-advantage constant raises the projected total
by exactly `HFA`. -/
theorem predictor_matches_spec_formula (params : FullOptimize.SimParams)
    (hcap : 0 ≤ params.eloCap) (homeElo awayElo : ℚ)
    (homeStats awayStats : FullOptimize.TeamStats) :
    FullOptimize.predictScores params homeElo awayElo homeStats awayStats =
      predictScoresSpec FullOptimize.LEAGUE_AVG_PPG params.statsRegression params.eloToPoints
        params.homeCourt params.eloCap homeElo awayElo homeStats.ppg homeStats.ppgAllowed
        awayStats.ppg awayStats.ppgAllowed ∧
    (FullOptimize.predictScores params homeElo awayElo homeStats awayStats).1 +
        (FullOptimize.predictScores params homeElo awayElo homeStats awayStats).2 =
      (FullOptimize.predictScores { params with homeCourt := 0 } homeElo awayElo
            homeStats awayStats).1 +
        (FullOptimize.predictScores { params with homeCourt := 0 } homeElo awayElo
            homeStats awayStats).2 +
        params.homeCourt := by
  constructor
  · rcases eq_or_lt_of_le hcap with h | h
    · simp only [FullOptimize.predictScores, predictScoresSpec, ← h]
      norm_num
    · simp only [FullOptimize.predictScores, predictScoresSpec, clamp]
      rw [if_pos h, if_neg (ne_of_gt h)]
      simp only [neg_div]
  · simp only [FullOptimize.predictScores]
    ring

/-- Concrete instance of `predictor_matches_spec_formula` at the optimizer's
baseline parameters. -/
theorem predictor_matches_spec_formula_witness :
    FullOptimize.predictScores ⟨0.1, 0.03, 2.5, 0.3, 4⟩ 1520 1480 ⟨115, 110⟩ ⟨108, 113⟩ =
      predictScoresSpec FullOptimize.LEAGUE_AVG_PPG 0.1 0.03 2.5 4 1520 1480 115 110 108 113 ∧
    (FullOptimize.predictScores ⟨0.1, 0.03, 2.5, 0.3, 4⟩ 1520 1480 ⟨115, 110⟩ ⟨108, 113⟩).1 +
        (FullOptimize.predictScores ⟨0.1, 0.03, 2.5, 0.3, 4⟩ 1520 1480 ⟨115, 110⟩
            ⟨108, 113⟩).2 =
      (FullOptimize.predictScores ⟨0.1, 0.03, 0, 0.3, 4⟩ 1520 1480 ⟨115, 110⟩ ⟨108, 113⟩).1 +
        (FullOptimize.predictScores ⟨0.1, 0.03, 0, 0.3, 4⟩ 1520 1480 ⟨115, 110⟩
            ⟨108, 113⟩).2 +
        (2.5 : ℚ) :=
  predictor_matches_spec_formula ⟨0.1, 0.03, 2.5, 0.3, 4⟩ (by norm_num) 1520 1480
    ⟨115, 110⟩ ⟨108, 113⟩

/-- C6 counterexample: in the spec's concrete scenario (ratings 1500/1500,
home advantage 2.5, rating-to-points 0.06, league-average PPG 22, regression
0.3, both teams exactly at the league average) the parametrised predictor
does NOT return `(11.0 + 1.25, 11.0 - 1.25)`: the base score for a team at
league average is 22, not 11, and `HFA/2` is added to the away side as well. -/
theorem scenario_prediction_counterexample :
    decide (NflSweep.predictWithParams 1500 1500 22 22 22 22 ⟨0, 0.06, 2.5, 0⟩ =
      ((11 : ℚ) + 1.25, (11 : ℚ) - 1.25)) = false := by
  apply decide_eq_false
  have hval : NflSweep.predictWithParams 1500 1500 22 22 22 22 ⟨0, 0.06, 2.5, 0⟩ =
      ((93 : ℚ) / 4, (93 : ℚ) / 4) := by
    norm_num [NflSweep.predictWithParams, NflSweep.LEAGUE_AVG_PPG]
  rw [hval]
  norm_num [Prod.ext_iff]

/-- C6 amended: in the spec's concrete scenario the predictor returns
`(22 + 1.25, 22 + 1.25) = (23.25, 23.25)` before half-point rounding: both
sides project at the league average plus half the home-advantage constant
(with equal ratings the cap setting is irrelevant). -/
theorem scenario_prediction_value :
    NflSweep.predictWithParams 1500 1500 22 22 22 22 ⟨0, 0.06, 2.5, 0⟩ =
      ((22 : ℚ) + 1.25, (22 : ℚ) + 1.25) := by
  norm_num [NflSweep.predictWithParams, NflSweep.LEAGUE_AVG_PPG, Prod.ext_iff]

/-- Helper: one grading of the ATS branch adds at most one to wins+losses. -/
theorem gradeAtsTally_wl (t : NflSweep.SimTally) (pickHome : Bool) (s v : ℚ) :
    (NflSweep.gradeAtsTally t pickHome s v).atsWins +
        (NflSweep.gradeAtsTally t pickHome s v).atsLosses ≤
      t.atsWins + t.atsLosses + 1 := by
  cases pickHome <;>
    simp only [NflSweep.gradeAtsTally] <;>
    split_ifs <;>
    simp <;>
    omega

/-- Helper: one iteration of the sweep loop adds at most one graded spread
bet. -/
theorem simStep_wl (p : NflSweep.SimParams) (t : NflSweep.SimTally) (g : NflSweep.BacktestGame) :
    (NflSweep.simStep p t g).atsWins + (NflSweep.simStep p t g).atsLosses ≤
      t.atsWins + t.atsLosses + 1 := by
  rcases hv : g.vegasSpread with _ | v
  · simp [NflSweep.simStep, hv]
  · simp only [NflSweep.simStep, hv]
    obtain ⟨e1, e2, e3⟩ := gradeOuTally_ats
      (NflSweep.gradeAtsTally { t with gamesWithSpread := t.gamesWithSpread + 1 }
        (atsPickHome (NflSweep.predSpread p g) v) (g.actualAwayScore - g.actualHomeScore) v)
      (NflSweep.predTotal p g) g.vegasTotal (g.actualHomeScore + g.actualAwayScore)
    rw [e1, e2]
    simpa using gradeAtsTally_wl { t with gamesWithSpread := t.gamesWithSpread + 1 }
      (atsPickHome (NflSweep.predSpread p g) v) (g.actualAwayScore - g.actualHomeScore) v

/-- Helper: a one-game history yields at most one graded spread bet for any
candidate parameters. -/
theorem runSimulation_single_bound (p : NflSweep.SimParams) (g : NflSweep.BacktestGame) :
    (NflSweep.runSimulation [g] p).ats.wins + (NflSweep.runSimulation [g] p).ats.losses ≤ 1 := by
  simp only [NflSweep.runSimulation, List.foldl_cons, List.foldl_nil]
  simpa [NflSweep.initTally] using simStep_wl p NflSweep.initTally g

/-- Helper: every entry of the sweep's grid is the simulation of some
parameter candidate over the same game list. -/
theorem mem_gridResults (games : List NflSweep.BacktestGame) (r : NflSweep.SimulationResult)
    (hr : r ∈ NflSweep.gridResults games) :
    ∃ p, r = NflSweep.runSimulation games p := by
  simp only [NflSweep.gridResults, List.mem_cons, List.mem_append, List.mem_map,
    List.mem_filter, List.mem_flatMap] at hr
  aesop

/-- C8 amended: the conviction optimizer's ranked output only contains
candidates with at least 10 graded games, and the NFL strategy sweep's ranked
ATS/O-U outputs only candidates with at least 30 graded bets; the NFL
parameter sweep of part_008, however, ranks its `bestATS` output with no
minimum-sample floor at all (see the counterexample). -/
theorem ranked_output_sample_floors :
    (∀ (games : List Conviction.BacktestResult) (filters : List Conviction.FilterConfig)
        (r : Conviction.FilterResult),
        r ∈ Conviction.rankedFilters games filters → 10 ≤ r.games) ∧
    (∀ (results : List Strategy.SimulationResult) (r : Strategy.SimulationResult),
        r ∈ Strategy.bestAtsStrategies results → 30 ≤ r.ats.bets) ∧
    (∀ (results : List Strategy.SimulationResult) (r : Strategy.SimulationResult),
        r ∈ Strategy.bestOuStrategies results → 30 ≤ r.ou.bets) := by
  refine ⟨?_, ?_, ?_⟩
  · intro games filters r hr
    rw [Conviction.rankedFilters, List.mem_mergeSort, List.mem_filter] at hr
    simpa using hr.2
  · intro results r hr
    rw [Strategy.bestAtsStrategies] at hr
    have hr' := List.mem_of_mem_take hr
    rw [List.mem_filter] at hr'
    simpa using hr'.2
  · intro results r hr
    rw [Strategy.bestOuStrategies] at hr
    have hr' := List.mem_of_mem_take hr
    rw [List.mem_filter] at hr'
    simpa using hr'.2

/-- Concrete instance of `ranked_output_sample_floors`: a baseline filter over
ten graded games survives the conviction floor, and a strategy candidate with
exactly 30 bets survives the strategy floor. -/
theorem ranked_output_sample_floors_witness :
    10 ≤ (Conviction.testFilter (List.replicate 10 Conviction.convictionGame)
        Conviction.baselineConfig).games ∧
    30 ≤ Strategy.flooredResult.ats.bets := by
  have hstep : ∀ acc, Conviction.testFilterStep Conviction.baselineConfig acc
      Conviction.convictionGame = (acc.1 + 1, acc.2.1, acc.2.2) := by
    intro acc
    norm_num [Conviction.testFilterStep, Conviction.passesFilter, Conviction.convictionGame,
      Conviction.baselineConfig]
  have hfold : (List.replicate 10 Conviction.convictionGame).foldl
      (Conviction.testFilterStep Conviction.baselineConfig) (0, 0, 0) = (10, 0, 0) := by
    simp only [List.replicate, List.foldl_cons, List.foldl_nil, hstep]
  have hgames : (Conviction.testFilter (List.replicate 10 Conviction.convictionGame)
      Conviction.baselineConfig).games = 10 := by
    simp only [Conviction.testFilter, hfold]
  have hmem : Conviction.testFilter (List.replicate 10 Conviction.convictionGame)
      Conviction.baselineConfig ∈
      Conviction.rankedFilters (List.replicate 10 Conviction.convictionGame)
        [Conviction.baselineConfig] := by
    rw [Conviction.rankedFilters, List.mem_mergeSort, List.mem_filter]
    refine ⟨List.mem_singleton.mpr rfl, ?_⟩
    rw [hgames]
    decide
  have hmem2 : Strategy.flooredResult ∈ Strategy.bestAtsStrategies [Strategy.flooredResult] := by
    rw [Strategy.bestAtsStrategies, List.mergeSort_singleton]
    simp [Strategy.flooredResult]
  exact ⟨ranked_output_sample_floors.1 _ _ _ hmem,
    ranked_output_sample_floors.2.1 _ _ hmem2⟩

/-- C8 counterexample: the NFL parameter sweep's ranked output applies no
minimum-sample floor.  On a one-game history every candidate has at most one
graded bet, yet the ranked `bestATS` list is nonempty: its entries all sit
far below the 10-game floor of the conviction optimizer and the 30-bet floor
of the strategy sweep. -/
theorem sweep_ranking_lacks_sample_floor :
    0 < (NflSweep.bestATS [NflSweep.tieGame]).length ∧
    ((NflSweep.bestATS [NflSweep.tieGame]).map
        (fun r => r.ats.wins + r.ats.losses)).all (fun n => decide (n ≤ 1)) = true := by
  have hfil : [NflSweep.tieGame].filter (fun g => g.vegasSpread.isSome) = [NflSweep.tieGame] :=
    rfl
  constructor
  · rw [NflSweep.bestATS]
    simp only [hfil, List.length_take, List.length_mergeSort]
    rw [NflSweep.gridResults]
    simp
  · rw [List.all_eq_true]
    intro x hx
    rw [List.mem_map] at hx
    obtain ⟨r, hr, rfl⟩ := hx
    rw [NflSweep.bestATS] at hr
    simp only [hfil] at hr
    have hr' := List.mem_of_mem_take hr
    rw [List.mem_mergeSort] at hr'
    obtain ⟨p, rfl⟩ := mem_gridResults _ _ hr'
    simpa using runSimulation_single_bound p NflSweep.tieGame

/-- Helper: membership is preserved by `addProcessed`. -/
theorem mem_addProcessed_of_mem {l : List String} {x : String} (gid : String) (hx : x ∈ l) :
    x ∈ NflBacktest.addProcessed l gid := by
  unfold NflBacktest.addProcessed
  split_ifs with h
  · exact hx
  · exact List.mem_append_left _ hx

/-- Helper: `addProcessed` always contains the inserted id. -/
theorem self_mem_addProcessed (l : List String) (gid : String) :
    gid ∈ NflBacktest.addProcessed l gid := by
  unfold NflBacktest.addProcessed
  split_ifs with h
  · simpa using h
  · exact List.mem_append_right _ (List.mem_singleton.mpr rfl)

/-- Helper: updating one team's rating never changes which ids resolve. -/
theorem lookupTeam_setElo_isSome (ts : List NflBacktest.TeamData) (i j : String) (e : ℚ) :
    (NflBacktest.lookupTeam (NflBacktest.setElo ts i e) j).isSome =
      (NflBacktest.lookupTeam ts j).isSome := by
  unfold NflBacktest.setElo NflBacktest.lookupTeam
  rw [List.find?_map]
  have hcomp : ((fun t => t.id == j) ∘
      (fun t : NflBacktest.TeamData => if t.id == i then { t with eloRating := e } else t)) =
      (fun t : NflBacktest.TeamData => t.id == j) := by
    funext t
    by_cases h : t.id = i <;> simp [h]
  rw [hcomp]
  cases List.find? (fun t : NflBacktest.TeamData => t.id == j) ts <;> rfl

/-- Helper: a successful guard chain returns the game's own id. -/
theorem gameData_gid (ts : List NflBacktest.TeamData) (g : NflBacktest.NFLGame)
    (ctx : NflBacktest.GameCtx) (h : NflBacktest.gameData ts g = some ctx) :
    g.id = some ctx.gid := by
  rcases g with ⟨gi, gt, hti, ati, hsc, asc⟩
  rcases gi with _ | gid <;> rcases hti with _ | hid <;> rcases ati with _ | aid <;>
    rcases hsc with _ | hs <;> rcases asc with _ | aws <;>
    simp_all [NflBacktest.gameData]
  rcases hh : NflBacktest.lookupTeam ts hid with _ | ht <;>
    rcases ha : NflBacktest.lookupTeam ts aid with _ | at_ <;>
    rw [hh, ha] at h <;> simp_all
  subst h
  rfl

/-- Helper: a failed guard chain leaves the state untouched. -/
theorem step_of_gameData_none (upd : ℚ → ℚ → ℚ → ℚ → ℚ × ℚ) (s : NflBacktest.BacktestState)
    (g : NflBacktest.NFLGame) (h : NflBacktest.gameData s.teams g = none) :
    NflBacktest.step upd s g = s := by
  simp [NflBacktest.step, h]

/-- Helper: one replay step never removes an id from the processed set. -/
theorem step_processed_mono (upd : ℚ → ℚ → ℚ → ℚ → ℚ × ℚ) (s : NflBacktest.BacktestState)
    (g : NflBacktest.NFLGame) (x : String) (hx : x ∈ s.processed) :
    x ∈ (NflBacktest.step upd s g).processed := by
  rcases hgd : NflBacktest.gameData s.teams g with _ | ctx
  · rw [step_of_gameData_none upd s g hgd]
    exact hx
  · simp only [NflBacktest.step, hgd]
    exact mem_addProcessed_of_mem _ hx

/-- Helper: a replayed game's id lands in the processed set. -/
theorem gid_mem_step_processed (upd : ℚ → ℚ → ℚ → ℚ → ℚ × ℚ)
    (s : NflBacktest.BacktestState) (g : NflBacktest.NFLGame) (ctx : NflBacktest.GameCtx)
    (hgd : NflBacktest.gameData s.teams g = some ctx) :
    ctx.gid ∈ (NflBacktest.step upd s g).processed := by
  simp only [NflBacktest.step, hgd]
  exact self_mem_addProcessed _ _

/-- Helper: one replay step never changes which team ids resolve. -/
theorem step_sameKeys (upd : ℚ → ℚ → ℚ → ℚ → ℚ × ℚ) (s : NflBacktest.BacktestState)
    (g : NflBacktest.NFLGame) :
    NflBacktest.sameKeys (NflBacktest.step upd s g).teams s.teams := by
  rcases hgd : NflBacktest.gameData s.teams g with _ | ctx
  · rw [step_of_gameData_none upd s g hgd]
    intro tid
    rfl
  · intro tid
    simp only [NflBacktest.step, hgd]
    rw [lookupTeam_setElo_isSome, lookupTeam_setElo_isSome]

/-- Helper: the guard chain fails identically over key-equivalent team
lists. -/
theorem gameData_none_congr (ts ts' : List NflBacktest.TeamData) (g : NflBacktest.NFLGame)
    (hk : NflBacktest.sameKeys ts ts') (h : NflBacktest.gameData ts g = none) :
    NflBacktest.gameData ts' g = none := by
  rcases g with ⟨gi, gt, hti, ati, hsc, asc⟩
  rcases gi with _ | gid <;> rcases hti with _ | hid <;> rcases ati with _ | aid <;>
    rcases hsc with _ | hs <;> rcases asc with _ | aws <;>
    simp_all [NflBacktest.gameData]
  rcases hh : NflBacktest.lookupTeam ts hid with _ | ht
  · have : NflBacktest.lookupTeam ts' hid = none := by
      have hk' := (hk hid).symm
      rw [hh] at hk'
      simpa [Option.not_isSome_iff_eq_none] using hk'.symm
    rw [this]
  · rcases ha : NflBacktest.lookupTeam ts aid with _ | at_
    · have : NflBacktest.lookupTeam ts' aid = none := by
        have hk' := (hk aid).symm
        rw [ha] at hk'
        simpa [Option.not_isSome_iff_eq_none] using hk'.symm
      rw [this]
      rcases NflBacktest.lookupTeam ts' hid with _ | ht' <;> rfl
    · rw [hh, ha] at h
      simp at h

/-- Helper: replaying any game list never removes an id from the processed
set. -/
theorem foldl_processed_mono (upd : ℚ → ℚ → ℚ → ℚ → ℚ × ℚ)
    (L : List NflBacktest.NFLGame) (s : NflBacktest.BacktestState) (x : String)
    (hx : x ∈ s.processed) :
    x ∈ (L.foldl (NflBacktest.step upd) s).processed := by
  induction L generalizing s with
  | nil => exact hx
  | cons g rest ih => exact ih _ (step_processed_mono upd s g x hx)

/-- Helper: replaying any game list never changes which team ids resolve. -/
theorem foldl_sameKeys (upd : ℚ → ℚ → ℚ → ℚ → ℚ × ℚ) (L : List NflBacktest.NFLGame)
    (s : NflBacktest.BacktestState) :
    NflBacktest.sameKeys (L.foldl (NflBacktest.step upd) s).teams s.teams := by
  induction L generalizing s with
  | nil => intro tid; rfl
  | cons g rest ih =>
    intro tid
    rw [List.foldl_cons, ih (NflBacktest.step upd s g) tid, step_sameKeys upd s g tid]

/-- Helper: a replayed game whose id is still missing from the final
processed set must have failed the guard chain already at the initial
state. -/
theorem replay_skipped (upd : ℚ → ℚ → ℚ → ℚ → ℚ × ℚ) (L : List NflBacktest.NFLGame)
    (s : NflBacktest.BacktestState) (g : NflBacktest.NFLGame) (gid : String) (hg : g ∈ L)
    (hid : g.id = some gid) (hnot : gid ∉ (L.foldl (NflBacktest.step upd) s).processed) :
    NflBacktest.gameData s.teams g = none := by
  induction L generalizing s with
  | nil => cases hg
  | cons x rest ih =>
    rw [List.foldl_cons] at hnot
    rcases List.mem_cons.mp hg with rfl | hmem
    · rcases hgd : NflBacktest.gameData s.teams g with _ | ctx
      · rfl
      · exfalso
        apply hnot
        apply foldl_processed_mono
        have hmem2 := gid_mem_step_processed upd s g ctx hgd
        have hgg : ctx.gid = gid := by
          have h2 := gameData_gid s.teams g ctx hgd
          rw [hid] at h2
          injection h2 with h3
          exact h3.symm
        rwa [hgg] at hmem2
    · have hnone := ih (NflBacktest.step upd s x) hmem hnot
      exact gameData_none_congr _ _ g (step_sameKeys upd s x) hnone

/-- Helper: folding over games that all leave the state unchanged is the
identity. -/
theorem foldl_id_of_skip (upd : ℚ → ℚ → ℚ → ℚ → ℚ × ℚ) (L : List NflBacktest.NFLGame)
    (s : NflBacktest.BacktestState) (h : ∀ g ∈ L, NflBacktest.step upd s g = s) :
    L.foldl (NflBacktest.step upd) s = s := by
  induction L with
  | nil => rfl
  | cons x rest ih =>
    rw [List.foldl_cons, h x (List.mem_cons_self x rest)]
    exact ih (fun g hg => h g (List.mem_cons_of_mem x hg))

/-- C9: the backtest runner is idempotent over an unchanged game set: games
already in the processed set are filtered out before replay, so a second run
over the same completed games leaves the whole persisted state--every team
rating, the processed set, and all win/loss/push counters--exactly as the
first run left it, for every Elo-update rule. -/
theorem backtest_idempotent (updateElo : ℚ → ℚ → ℚ → ℚ → ℚ × ℚ)
    (st : NflBacktest.BacktestState) (games : List NflBacktest.NFLGame) :
    NflBacktest.run updateElo (NflBacktest.run updateElo st games) games =
      NflBacktest.run updateElo st games := by
  set s1 := NflBacktest.run updateElo st games with hs1
  simp only [NflBacktest.run]
  apply foldl_id_of_skip
  intro g hg
  rw [List.mem_mergeSort, List.mem_filter] at hg
  obtain ⟨hgames, hcond⟩ := hg
  rcases hid : g.id with _ | gid
  · rw [hid] at hcond
    simp at hcond
  · rw [hid] at hcond
    have hnotmem1 : gid ∉ s1.processed := by simpa using hcond
    have hnotmem0 : gid ∉ st.processed := by
      intro hmem
      apply hnotmem1
      rw [hs1]
      simp only [NflBacktest.run]
      exact foldl_processed_mono _ _ _ _ hmem
    have hmem1s : g ∈ (games.filter (fun g =>
        match g.id with
        | some gid => !st.processed.contains gid
        | none => false)).mergeSort (fun a b => decide (a.gameTime ≤ b.gameTime)) := by
      rw [List.mem_mergeSort, List.mem_filter]
      refine ⟨hgames, ?_⟩
      rw [hid]
      simpa using hnotmem0
    have hnone0 : NflBacktest.gameData st.teams g = none := by
      apply replay_skipped updateElo _ st g gid hmem1s hid
      rw [hs1] at hnotmem1
      simpa only [NflBacktest.run] using hnotmem1
    have hnone1 : NflBacktest.gameData s1.teams g = none := by
      refine gameData_none_congr st.teams s1.teams g ?_ hnone0
      intro tid
      have := foldl_sameKeys updateElo ((games.filter (fun g =>
        match g.id with
        | some gid => !st.processed.contains gid
        | none => false)).mergeSort (fun a b => decide (a.gameTime ≤ b.gameTime))) st tid
      rw [hs1]
      simp only [NflBacktest.run]
      exact this.symm
    exact step_of_gameData_none updateElo s1 g hnone1

/-- Helper: the ATS grading branch never touches the over/under counters. -/
theorem gradeAtsTally_ou (t : NflSweep.SimTally) (pickHome : Bool) (s v : ℚ) :
    (NflSweep.gradeAtsTally t pickHome s v).ouWins = t.ouWins ∧
    (NflSweep.gradeAtsTally t pickHome s v).ouLosses = t.ouLosses ∧
    (NflSweep.gradeAtsTally t pickHome s v).ouPushes = t.ouPushes ∧
    (NflSweep.gradeAtsTally t pickHome s v).gamesWithTotal = t.gamesWithTotal := by
  cases pickHome <;>
    simp only [NflSweep.gradeAtsTally] <;>
    split_ifs <;>
    simp

/-- C7 amended: in the parameter sweep, a game without a Vegas spread is
skipped outright--no counter of any market moves--and a game with a spread
but no Vegas total has only its spread bet graded, the total market staying
untouched.  The NFL blob-sync backtest, by contrast, grades every completed
game without consulting a market line at all (see the counterexample). -/
theorem missing_line_skips_grading (params : NflSweep.SimParams) (t : NflSweep.SimTally)
    (g : NflSweep.BacktestGame) :
    (g.vegasSpread = none → NflSweep.simStep params t g = t) ∧
    (g.vegasTotal = none →
      (NflSweep.simStep params t g).ouWins = t.ouWins ∧
      (NflSweep.simStep params t g).ouLosses = t.ouLosses ∧
      (NflSweep.simStep params t g).ouPushes = t.ouPushes ∧
      (NflSweep.simStep params t g).gamesWithTotal = t.gamesWithTotal) := by
  constructor
  · intro hv
    simp [NflSweep.simStep, hv]
  · intro hvt
    rcases hv : g.vegasSpread with _ | v
    · simp [NflSweep.simStep, hv]
    · simp only [NflSweep.simStep, hv, hvt, NflSweep.gradeOuTally]
      exact gradeAtsTally_ou _ _ _ _

/-- Concrete instance of `missing_line_skips_grading`: a game with no Vegas
spread leaves the tally untouched, and `tieGame` (no Vegas total) leaves the
over/under counters untouched. -/
theorem missing_line_skips_grading_witness :
    NflSweep.simStep NflSweep.plainParams NflSweep.initTally
        ⟨"nl", "H", "A", 1500, 1500, 22, 22, 20, 24, none, none⟩ = NflSweep.initTally ∧
    (NflSweep.simStep NflSweep.plainParams NflSweep.initTally NflSweep.tieGame).ouWins =
      NflSweep.initTally.ouWins :=
  ⟨(missing_line_skips_grading NflSweep.plainParams NflSweep.initTally
      ⟨"nl", "H", "A", 1500, 1500, 22, 22, 20, 24, none, none⟩).1 rfl,
   ((missing_line_skips_grading NflSweep.plainParams NflSweep.initTally NflSweep.tieGame).2
      rfl).1⟩

/-- C7 counterexample: the NFL blob-sync backtest produces spread and total
verdicts for a game although no market line exists anywhere in its pipeline
(its game records carry no spread or total field): replaying `finalGame`
grades the spread against the model's own predicted spread (a win here) and
the total against the constant 44 (a push here), so a game with an absent
market line is NOT left ungraded. -/
theorem backtest_grades_without_market_line :
    (NflBacktest.run (fun h a _ _ => (h, a)) NflBacktest.twoTeamState
        [NflBacktest.finalGame]).spreadWins = 1 ∧
    (NflBacktest.run (fun h a _ _ => (h, a)) NflBacktest.twoTeamState
        [NflBacktest.finalGame]).ouPushes = 1 := by
  have hfil : [NflBacktest.finalGame].filter (fun g =>
      match g.id with
      | some gid => !NflBacktest.twoTeamState.processed.contains gid
      | none => false) = [NflBacktest.finalGame] := rfl
  have hgd : NflBacktest.gameData NflBacktest.twoTeamState.teams NflBacktest.finalGame =
      some ⟨24, 20, "g1", "h1", "a1", ⟨"h1", "Home", "H", 1500, some 30, some 20⟩,
        ⟨"a1", "Away", "A", 1500, some 20, some 30⟩⟩ := rfl
  have hpred : NflBacktest.predictScore 1500 1500 30 20 20 30 = (28.7, 21.7) := by
    norm_num [NflBacktest.predictScore, NflBacktest.roundTenth, NflBacktest.LEAGUE_AVG_PPG,
      NflBacktest.ELO_TO_POINTS, NflBacktest.HOME_FIELD_ADVANTAGE, NflBacktest.ELO_CAP,
      jsRound, Prod.ext_iff]
  have hspread : NflBacktest.calculateSpread (287 / 10) (217 / 10) = -3 := by
    norm_num [NflBacktest.calculateSpread, NflBacktest.SPREAD_REGRESSION, jsRound]
  constructor <;>
    · simp only [NflBacktest.run, hfil, List.mergeSort_singleton, List.foldl_cons,
        List.foldl_nil]
      simp only [NflBacktest.step, hgd]
      norm_num [NflBacktest.orLeagueAvg, hpred, hspread, NflBacktest.twoTeamState]

/-- C10: every cited win-percentage computation excludes pushes from its
denominator and is guarded against empty samples: the sweep's per-market
`winPct`, the NFL blob-sync summary shape `summaryPct`, and the optimize
route's `calculateMetrics.winPct` all report exactly 0 (never a
division-by-zero NaN) when `wins + losses = 0`; and appending a push-graded
row to `calculateMetrics` changes neither the win/loss counts nor the
reported percentage. -/
theorem win_pct_guarded :
    (∀ (games : List NflSweep.BacktestGame) (params : NflSweep.SimParams),
      ((NflSweep.runSimulation games params).ats.wins +
          (NflSweep.runSimulation games params).ats.losses = 0 →
        (NflSweep.runSimulation games params).ats.winPct = 0) ∧
      ((NflSweep.runSimulation games params).ou.wins +
          (NflSweep.runSimulation games params).ou.losses = 0 →
        (NflSweep.runSimulation games params).ou.winPct = 0)) ∧
    (∀ wins losses : Nat, wins + losses = 0 → NflBacktest.summaryPct wins losses = 0) ∧
    (∀ (rs : List OptimizeRoute.BacktestResult)
        (f : OptimizeRoute.BacktestResult → Option Verdict),
      (OptimizeRoute.calculateMetrics rs f).wins +
          (OptimizeRoute.calculateMetrics rs f).losses = 0 →
        (OptimizeRoute.calculateMetrics rs f).winPct = 0) ∧
    (∀ (rs : List OptimizeRoute.BacktestResult) (r : OptimizeRoute.BacktestResult)
        (f : OptimizeRoute.BacktestResult → Option Verdict), f r = some .push →
      (OptimizeRoute.calculateMetrics (rs ++ [r]) f).wins =
          (OptimizeRoute.calculateMetrics rs f).wins ∧
        (OptimizeRoute.calculateMetrics (rs ++ [r]) f).losses =
          (OptimizeRoute.calculateMetrics rs f).losses ∧
        (OptimizeRoute.calculateMetrics (rs ++ [r]) f).winPct =
          (OptimizeRoute.calculateMetrics rs f).winPct) := by
  have hw : ∀ w l : Nat, w + l = 0 → NflSweep.winPctOf w l = 0 := by
    intro w l h
    unfold NflSweep.winPctOf
    rw [h]
    simp
  refine ⟨?_, ?_, ?_, ?_⟩
  · intro games params
    constructor <;>
      · intro h
        simp only [NflSweep.runSimulation] at h ⊢
        exact hw _ _ h
  · intro wins losses h
    unfold NflBacktest.summaryPct
    rw [h]
    simp
  · intro rs f h
    simp only [OptimizeRoute.calculateMetrics] at h ⊢
    rw [h]
    simp
  · intro rs r f hp
    have hlen : ∀ v : Verdict, v ≠ Verdict.push →
        ((rs ++ [r]).filter (fun x => f x == some v)).length =
          (rs.filter (fun x => f x == some v)).length := by
      intro v hv
      rw [List.filter_append]
      have hbeq : (Verdict.push == v) = false := by
        simp only [beq_eq_false_iff_ne]
        exact fun h => hv h.symm
      have hnil : [r].filter (fun x => f x == some v) = [] := by
        simp [List.filter, hp, hbeq]
      rw [hnil, List.append_nil]
    refine ⟨?_, ?_, ?_⟩ <;> simp only [OptimizeRoute.calculateMetrics]
    · rw [hlen Verdict.win (by simp)]
    · rw [hlen Verdict.loss (by simp)]
    · rw [hlen Verdict.win (by simp), hlen Verdict.loss (by simp)]

/-- Concrete instance of `win_pct_guarded` on empty and push-only inputs. -/
theorem win_pct_guarded_witness :
    (NflSweep.runSimulation [] NflSweep.plainParams).ats.winPct = 0 ∧
    NflBacktest.summaryPct 0 0 = 0 ∧
    (OptimizeRoute.calculateMetrics [] (fun r => r.atsResult)).winPct = 0 ∧
    (OptimizeRoute.calculateMetrics ([] ++ [OptimizeRoute.pushRow])
        (fun r => r.atsResult)).winPct =
      (OptimizeRoute.calculateMetrics [] (fun r => r.atsResult)).winPct :=
  ⟨(win_pct_guarded.1 [] NflSweep.plainParams).1 rfl,
   win_pct_guarded.2.1 0 0 rfl,
   win_pct_guarded.2.2.1 [] (fun r => r.atsResult) rfl,
   (win_pct_guarded.2.2.2 [] OptimizeRoute.pushRow (fun r => r.atsResult) rfl).2.2⟩

/-- C5: the Elo home win probability
`p = 1 / (1 + 10^((awayElo - (homeElo + 48)) / 400))` lies strictly between 0
and 1 for all finite rating inputs, and for every fixed away rating it is
strictly increasing in the home rating. -/
theorem homeWinProb_bounds_and_mono (homeElo awayElo : ℝ) :
    (0 < NflBacktest.homeWinProb homeElo awayElo ∧
      NflBacktest.homeWinProb homeElo awayElo < 1) ∧
    ∀ homeElo2 : ℝ, homeElo < homeElo2 →
      NflBacktest.homeWinProb homeElo awayElo < NflBacktest.homeWinProb homeElo2 awayElo := by
  have hexp : ∀ h : ℝ, (0:ℝ) < (10:ℝ) ^ ((awayElo - (h + 48)) / 400) := fun h =>
    Real.rpow_pos_of_pos (by norm_num) _
  have hden : ∀ h : ℝ, (0:ℝ) < 1 + (10:ℝ) ^ ((awayElo - (h + 48)) / 400) := fun h => by
    have := hexp h
    linarith
  refine ⟨⟨?_, ?_⟩, ?_⟩
  · unfold NflBacktest.homeWinProb
    exact one_div_pos.mpr (hden homeElo)
  · unfold NflBacktest.homeWinProb
    rw [div_lt_one (hden homeElo)]
    have := hexp homeElo
    linarith
  · intro homeElo2 hlt
    unfold NflBacktest.homeWinProb
    have hz : (awayElo - (homeElo2 + 48)) / 400 < (awayElo - (homeElo + 48)) / 400 := by
      apply div_lt_div_of_pos_right ?_ (by norm_num)
      linarith
    have hpow : (10:ℝ) ^ ((awayElo - (homeElo2 + 48)) / 400) <
        (10:ℝ) ^ ((awayElo - (homeElo + 48)) / 400) :=
      (Real.rpow_lt_rpow_left_iff (by norm_num)).mpr hz
    apply one_div_lt_one_div_of_lt (hden homeElo2)
    linarith

/-- Concrete instance of `homeWinProb_bounds_and_mono` at ratings 1500/1500
and 1501/1500. -/
theorem homeWinProb_bounds_and_mono_witness :
    (0 < NflBacktest.homeWinProb 1500 1500 ∧ NflBacktest.homeWinProb 1500 1500 < 1) ∧
    NflBacktest.homeWinProb 1500 1500 < NflBacktest.homeWinProb 1501 1500 :=
  ⟨(homeWinProb_bounds_and_mono 1500 1500).1,
   (homeWinProb_bounds_and_mono 1500 1500).2 1501 (by norm_num)⟩
